import Mathlib

/-!
Verification development for the `auto_riego` irrigation server
(`src/server.js`): a shallow embedding of the zone-state and
irrigation-decision core — the `SECTIONS` configuration table, the
Firebase partial-update store semantics, the `/api/data` ingest
handler, the `/api/control` manual-control handler and the
`evaluateAndMaybeTriggerValve` policy function — together with
theorems settling the specified properties of that core.

Conventions of the embedding:
* JS numbers carried by sensor readings are modelled as `Int`; a field
  that may be absent from a JSON object is an `Option`.  Comparing an
  absent (`undefined`) number with `<=`, `>` or `>=` is `false` in JS,
  which the `jsLe`/`jsGt`/`jsGe` helpers reproduce.
* A Firebase `ref.update(obj)` is a top-level partial merge: keys
  present in `obj` overwrite, keys absent are preserved.  The three
  update shapes the server issues are `mergeReading` (the raw device
  payload, stamped with a timestamp), `autoValveUpdate`
  (`{valvula, ultima_actualizacion, reason}`) and
  `manualControlUpdate` (`{valvula, ultima_actualizacion,
  manual_override: true}`).
* Timestamps (`new Date().toISOString()`) are abstracted as `Nat`.
* The two automatic valve writes in `evaluateAndMaybeTriggerValve`
  are fire-and-forget (`.catch(console.error)`); the `onFails` /
  `offFails` flags of the sequential model say whether those writes
  fail, in which case the error is only logged and the store is
  unchanged.  A failing write never affects the returned value.
* The deferred auto-close (`once('value').then(...)`) is modelled in
  two ways: sequentially inside `evaluateAndMaybeTriggerValve`
  (snapshot = current state), and as separate atomic micro-steps
  (`MicroStep`) for reasoning about interleavings of same-zone
  operations, since the server never awaits that promise chain.
-/

/-- String constants of the server (valve states, reasons, messages). -/
def valveOn : String := "on"

def valveOff : String := "off"

def reasonAutoSoilLow : String := "auto_soil_low"

def reasonSoilOk : String := "soil_ok"

def sugSoilLow : String := "Humedad de suelo baja -> abriendo válvula automáticamente."

def sugSoilOk : String := "Humedad de suelo adecuada."

def sugTempHigh : String := "Temperatura alta: revisar ventilación/sombra."

def sugTempLow : String := "Temperatura baja: proteger plantas si es necesario."

def spaceSep : String := " "

def emptyStr : String := ""

def secSombra : String := "sombra"

def secSemisombra : String := "semisombra"

def secSol : String := "sol"

/-- Per-zone static thresholds, as in the `SECTIONS` constant of `server.js`. -/
structure ZoneConfig where
  soilThreshold : Int
  tempHigh : Int
  tempLow : Int
deriving DecidableEq, Repr

/-- The `SECTIONS` table of `server.js`:
`sombra ↦ {400, 32, 10}`, `semisombra ↦ {350, 34, 10}`, `sol ↦ {300, 36, 10}`. -/
def SECTIONS (sec : String) : Option ZoneConfig :=
  if sec = secSombra then some { soilThreshold := 400, tempHigh := 32, tempLow := 10 }
  else if sec = secSemisombra then some { soilThreshold := 350, tempHigh := 34, tempLow := 10 }
  else if sec = secSol then some { soilThreshold := 300, tempHigh := 36, tempLow := 10 }
  else none

/-- JS `a <= b` where `a` may be `undefined` (absent field): `undefined <= b` is `false`. -/
def jsLe : Option Int → Int → Bool
  | some a, b => a ≤ b
  | none, _ => false

/-- JS `a > b` where `a` may be `undefined`: `undefined > b` is `false`. -/
def jsGt : Option Int → Int → Bool
  | some a, b => b < a
  | none, _ => false

/-- JS `a >= b` where `a` may be `undefined`: `undefined >= b` is `false`. -/
def jsGe : Option Int → Int → Bool
  | some a, b => b ≤ a
  | none, _ => false

/-- Durable per-zone state at `/vivero/secciones/<section>`: last merged
telemetry fields plus the control fields `valvula`, `manual_override`,
`reason` and the `ultima_actualizacion` stamp.  Every field may be absent
(a zone record starts empty and only ever gains keys by partial updates). -/
structure ZoneState where
  humedad_suelo : Option Int := none
  temp : Option Int := none
  humedad_amb : Option Int := none
  luminosidad : Option Int := none
  valvula : Option String := none
  manual_override : Option Bool := none
  reason : Option String := none
  ultima_actualizacion : Option Nat := none
deriving DecidableEq, Repr

/-- An incoming request body for `/api/data`: the device telemetry keys,
plus the control keys a raw JSON body could in principle carry (the
handler merges `req.body` verbatim).  `none` = key absent from the JSON. -/
structure Payload where
  humedad_suelo : Option Int := none
  temp : Option Int := none
  humedad_amb : Option Int := none
  luminosidad : Option Int := none
  valvula : Option String := none
  manual_override : Option Bool := none
  reason : Option String := none
deriving DecidableEq, Repr

/-- Partial-update semantics of one key: a key present in the update
object overwrites, an absent key preserves the stored value. -/
def updField {α : Type} (new old : Option α) : Option α :=
  match new with
  | some v => some v
  | none => old

/-- The `/api/data` telemetry write: `payload.ultima_actualizacion = timestamp`
followed by `db.ref(refPath).update(payload)` — a top-level partial merge of
the body into the zone record, always stamping `ultima_actualizacion`. -/
def mergeReading (s : ZoneState) (p : Payload) (ts : Nat) : ZoneState :=
  { humedad_suelo := updField p.humedad_suelo s.humedad_suelo
    temp := updField p.temp s.temp
    humedad_amb := updField p.humedad_amb s.humedad_amb
    luminosidad := updField p.luminosidad s.luminosidad
    valvula := updField p.valvula s.valvula
    manual_override := updField p.manual_override s.manual_override
    reason := updField p.reason s.reason
    ultima_actualizacion := some ts }

/-- An automatic valve write:
`update({ valvula, ultima_actualizacion, reason })`.  Note the update
object carries no `manual_override` key, so that field is preserved. -/
def autoValveUpdate (s : ZoneState) (v r : String) (ts : Nat) : ZoneState :=
  { s with valvula := some v, reason := some r, ultima_actualizacion := some ts }

/-- The manual control write of `/api/control` and `/api/ui/control`:
`update({ valvula: action, ultima_actualizacion, manual_override: true })`.
Note the update object carries no `reason` key, so that field is preserved. -/
def manualControlUpdate (s : ZoneState) (a : String) (ts : Nat) : ZoneState :=
  { s with valvula := some a, manual_override := some true,
           ultima_actualizacion := some ts }

/-- Result of one run of `evaluateAndMaybeTriggerValve`: the zone state
after any automatic write it performed, the valve write it issued (pair of
`valvula` value and `reason`, `none` when no write was issued), and the
returned `{ suggestions, suggestionText }` object. -/
structure EvalResult where
  state : ZoneState
  valveWrite : Option (String × String)
  suggestions : List String
  suggestionText : String
deriving DecidableEq, Repr

/-- Shallow embedding of `evaluateAndMaybeTriggerValve(section, payload)` of
`server.js` (the `!cfg` guard is discharged by the caller's `SECTIONS`
check, so `cfg` arrives resolved here).
`soil <= cfg.soilThreshold` issues the `valvula:'on'` / `auto_soil_low`
write and pushes the soil-low suggestion; otherwise the deferred read sees
the current state `s` (sequential model) and issues the `valvula:'off'` /
`soil_ok` write exactly when `data.valvula === 'on' &&
data.manual_override !== true && soil > cfg.soilThreshold + 50`, pushing
the soil-ok suggestion.  Temperature advisories follow.  The two writes are
fire-and-forget: `onFails` / `offFails` make them fail, which is only
logged (the store keeps its value) and never reaches the returned object. -/
def evaluateAndMaybeTriggerValve (cfg : ZoneConfig) (p : Payload) (s : ZoneState)
    (onFails offFails : Bool) (ts : Nat) : EvalResult :=
  let soil := p.humedad_suelo
  let temp := p.temp
  let tempSugs :=
    (if jsGe temp cfg.tempHigh then [sugTempHigh] else [])
      ++ (if jsLe temp cfg.tempLow then [sugTempLow] else [])
  if jsLe soil cfg.soilThreshold then
    let s1 := if onFails then s else autoValveUpdate s valveOn reasonAutoSoilLow ts
    let sugs := [sugSoilLow] ++ tempSugs
    { state := s1
      valveWrite := some (valveOn, reasonAutoSoilLow)
      suggestions := sugs
      suggestionText := String.intercalate spaceSep sugs }
  else
    let data := s
    let doClose := data.valvula == some valveOn && data.manual_override != some true
        && jsGt soil (cfg.soilThreshold + 50)
    let s1 :=
      if doClose then (if offFails then s else autoValveUpdate s valveOff reasonSoilOk ts)
      else s
    let sugs := [sugSoilOk] ++ tempSugs
    { state := s1
      valveWrite := if doClose then some (valveOff, reasonSoilOk) else none
      suggestions := sugs
      suggestionText := String.intercalate spaceSep sugs }

/-- Which of the three storage writes an ingest can trigger fail on this
request (the store itself stays up for reads). -/
structure FailureOracle where
  mergeFails : Bool := false
  autoOnFails : Bool := false
  autoOffFails : Bool := false
deriving DecidableEq, Repr

/-- Error outcomes of the `/api/data` handler: 401 for a bad API key,
400 for a missing/unknown `section`, 500 when the awaited telemetry
merge throws (`StorageError`). -/
inductive IngestError where
  | unauthorized
  | invalidSection
  | storage
deriving DecidableEq, Repr

/-- Shallow embedding of the `/api/data` handler: API-key check, then the
`!section || !SECTIONS[section]` validation, then the awaited
`db.ref(refPath).update(payload)` (whose failure is caught and surfaces as
a 500, modelled `IngestError.storage`), then `evaluateAndMaybeTriggerValve`
on the stamped payload; its result object is returned to the caller.
The fire-and-forget writes inside the evaluation never fail the call. -/
def ingest (apiKeyOk : Bool) (sect : Option String) (p : Payload) (s : ZoneState)
    (fo : FailureOracle) (ts : Nat) : Except IngestError EvalResult :=
  if !apiKeyOk then Except.error IngestError.unauthorized
  else
    match sect with
    | none => Except.error IngestError.invalidSection
    | some sec =>
      if sec = emptyStr then Except.error IngestError.invalidSection
      else
        match SECTIONS sec with
        | none => Except.error IngestError.invalidSection
        | some cfg =>
          if fo.mergeFails then Except.error IngestError.storage
          else
            Except.ok (evaluateAndMaybeTriggerValve cfg p (mergeReading s p ts)
              fo.autoOnFails fo.autoOffFails ts)

/-- Error outcomes of the `/api/control` handler: 401 for a bad API key,
400 (`Invalid payload`) otherwise. -/
inductive ControlError where
  | unauthorized
  | invalidPayload
deriving DecidableEq, Repr

/-- Shallow embedding of the `/api/control` handler (and of the manual part
of `/api/ui/control`, identical after its JWT check): validates
`!section || !['on','off'].includes(action)` — and nothing else, in
particular it never consults `SECTIONS` — then performs
`manualControlUpdate` and answers `{ ok, section, action }`; the returned
pair `(section, action)` is also the `control-update` event payload. -/
def controlApply (apiKeyOk : Bool) (sect act : Option String) (s : ZoneState)
    (ts : Nat) : Except ControlError (ZoneState × String × String) :=
  if !apiKeyOk then Except.error ControlError.unauthorized
  else
    match sect, act with
    | some sec, some a =>
      if sec = emptyStr ∨ ¬(a = valveOn ∨ a = valveOff) then
        Except.error ControlError.invalidPayload
      else Except.ok (manualControlUpdate s a ts, sec, a)
    | _, _ => Except.error ControlError.invalidPayload

/-- State of one zone record plus the snapshot held by a pending deferred
auto-close task (`db.ref(...).once('value')` already resolved, its `then`
continuation not yet run). -/
structure MachineState where
  store : ZoneState
  snap : Option ZoneState
deriving DecidableEq, Repr

/-- The atomic storage operations the server issues against one zone
record, used to reason about interleavings: the awaited telemetry merge,
the fire-and-forget `on` write, the deferred-close snapshot read, the
deferred-close conditional `off` write (judged on the snapshot), and the
manual-control write. -/
inductive MicroStep where
  | mergeWrite (p : Payload) (ts : Nat)
  | autoOnWrite (ts : Nat)
  | snapRead
  | autoOffWrite (cfg : ZoneConfig) (soil : Option Int) (ts : Nat)
  | manualWrite (a : String) (ts : Nat)
deriving DecidableEq, Repr

/-- Effect of one atomic micro-step, each clause mirroring the
corresponding `db.ref(...)` call in `server.js`; `autoOffWrite` applies the
`data.valvula === 'on' && data.manual_override !== true && soil >
cfg.soilThreshold + 50` test to the snapshot taken by the earlier
`snapRead`, not to the store at write time. -/
def stepRun (m : MachineState) : MicroStep → MachineState
  | MicroStep.mergeWrite p ts => { m with store := mergeReading m.store p ts }
  | MicroStep.autoOnWrite ts =>
    { m with store := autoValveUpdate m.store valveOn reasonAutoSoilLow ts }
  | MicroStep.snapRead => { m with snap := some m.store }
  | MicroStep.autoOffWrite cfg soil ts =>
    match m.snap with
    | some data =>
      if data.valvula == some valveOn && data.manual_override != some true
          && jsGt soil (cfg.soilThreshold + 50)
      then { m with store := autoValveUpdate m.store valveOff reasonSoilOk ts }
      else m
    | none => m
  | MicroStep.manualWrite a ts => { m with store := manualControlUpdate m.store a ts }

/-- Run a schedule of micro-steps left to right. -/
def runSteps (m : MachineState) (l : List MicroStep) : MachineState :=
  l.foldl stepRun m

/-- Micro-step decomposition of an ingest whose reading is above threshold:
the awaited merge, then — on the never-awaited promise chain — the
snapshot read and the conditional close write. -/
def ingestStepsHighSoil (cfg : ZoneConfig) (p : Payload) (ts : Nat) : List MicroStep :=
  [MicroStep.mergeWrite p ts, MicroStep.snapRead,
   MicroStep.autoOffWrite cfg p.humedad_suelo ts]

/-- Micro-step decomposition of a manual `/api/control` apply: one write. -/
def manualSteps (a : String) (ts : Nat) : List MicroStep :=
  [MicroStep.manualWrite a ts]

/-- Decides whether `cs` is an interleaving of `as` and `bs` that keeps
the internal order of each. -/
def isInterleaving {α : Type} [BEq α] : List α → List α → List α → Bool
  | as, bs, [] => as.isEmpty && bs.isEmpty
  | as, bs, c :: cs =>
    (match as with
     | a :: as2 => a == c && isInterleaving as2 bs cs
     | [] => false)
    || (match bs with
        | b :: bs2 => b == c && isInterleaving as bs2 cs
        | [] => false)

/-- The `sol` zone configuration from `SECTIONS`. -/
def cfgSol : ZoneConfig := { soilThreshold := 300, tempHigh := 36, tempLow := 10 }

/-- A reading at soil moisture 250, temperature 20 (below the `sol` threshold). -/
def pSoil250 : Payload := { humedad_suelo := some 250, temp := some 20 }

/-- A reading at soil moisture 200 (critically below the `sol` threshold). -/
def pSoil200 : Payload := { humedad_suelo := some 200 }

/-- A reading at soil moisture 360 (above the `sol` threshold plus its margin). -/
def pSoil360 : Payload := { humedad_suelo := some 360 }

/-- A zone whose valve is on under a manual override. -/
def sControl : ZoneState := { valvula := some valveOn, manual_override := some true }

/-- A section name that is not in the `SECTIONS` table. -/
def secPatio : String := "patio"

/-- A zone whose valve is on with no override recorded. -/
def sValveOn : ZoneState := { valvula := some valveOn }

/-- A zone whose valve is on with the override flag explicitly false. -/
def sOnManualFalse : ZoneState := { valvula := some valveOn, manual_override := some false }

/-- A zone just written by the automatic open (reason `auto_soil_low`). -/
def sAfterAuto : ZoneState := autoValveUpdate {} valveOn reasonAutoSoilLow 1

/-- Start state for the interleaving exhibit: valve on, no pending snapshot. -/
def raceStart : MachineState := { store := sValveOn, snap := none }

/-- A schedule the server permits (the deferred-close promise chain is never
awaited): the ingest performs its merge and its snapshot read, then the manual
open lands, then the deferred close writes using the stale snapshot. -/
def raceSchedule : List MicroStep :=
  [MicroStep.mergeWrite pSoil360 1, MicroStep.snapRead, MicroStep.manualWrite valveOn 2,
   MicroStep.autoOffWrite cfgSol (some 360) 1]

/-- Every section with a configuration has a non-empty name, so the
`!section` falsiness check in the handlers never fires for it. -/
lemma SECTIONS_ne_empty {sec : String} {cfg : ZoneConfig}
    (h : SECTIONS sec = some cfg) : sec ≠ emptyStr := by
  intro he
  rw [he] at h
  have h0 : SECTIONS emptyStr = none := by decide
  rw [h0] at h
  exact Option.noConfusion h

/-- On a non-empty section and a valid action, `/api/control` performs the
manual write and answers ok — with no check that the section is configured. -/
lemma controlApply_valid_eq (sec a : String) (s : ZoneState) (ts : Nat)
    (hsec : sec ≠ emptyStr) (ha : a = valveOn ∨ a = valveOff) :
    controlApply true (some sec) (some a) s ts
      = Except.ok (manualControlUpdate s a ts, sec, a) := by
  have hcond : ¬(sec = emptyStr ∨ ¬(a = valveOn ∨ a = valveOff)) := by
    push_neg
    exact ⟨hsec, ha⟩
  simp only [controlApply]
  rw [if_neg hcond]
  rfl

/-- Running the micro-step decomposition of a high-soil ingest serially,
with no competing operation, lands in exactly the state of the sequential
model — the micro-step machine refines `evaluateAndMaybeTriggerValve`. -/
lemma runSteps_ingestHighSoil_eq_eval (cfg : ZoneConfig) (p : Payload) (s : ZoneState)
    (ts : Nat) (h : jsLe p.humedad_suelo cfg.soilThreshold = false) :
    (runSteps { store := s, snap := none } (ingestStepsHighSoil cfg p ts)).store
      = (evaluateAndMaybeTriggerValve cfg p (mergeReading s p ts) false false ts).state := by
  simp [runSteps, ingestStepsHighSoil, stepRun, evaluateAndMaybeTriggerValve, h]
  split_ifs <;> rfl

/-- The `{ suggestions, suggestionText }` object built by
`evaluateAndMaybeTriggerValve` depends only on the configuration and the
reading: the stored state, the write-failure flags and the timestamp are
consulted only by the side-effect writes, never by the returned advisories. -/
lemma eval_suggestions_state_independent (cfg : ZoneConfig) (p : Payload)
    (s1 s2 : ZoneState) (a1 b1 a2 b2 : Bool) (t1 t2 : Nat) :
    (evaluateAndMaybeTriggerValve cfg p s1 a1 b1 t1).suggestions
        = (evaluateAndMaybeTriggerValve cfg p s2 a2 b2 t2).suggestions ∧
    (evaluateAndMaybeTriggerValve cfg p s1 a1 b1 t1).suggestionText
        = (evaluateAndMaybeTriggerValve cfg p s2 a2 b2 t2).suggestionText := by
  by_cases h : jsLe p.humedad_suelo cfg.soilThreshold <;>
    simp [evaluateAndMaybeTriggerValve, h]

/-- C1: every reading whose soil moisture is at or below the configured
threshold makes the evaluation issue the valve write `on` with reason
`auto_soil_low` and return the opening-the-valve advisory, for every prior
valve state and override flag and whatever becomes of the write. -/
theorem eval_soil_low_opens (cfg : ZoneConfig) (p : Payload) (s : ZoneState)
    (onFails offFails : Bool) (ts : Nat)
    (h : jsLe p.humedad_suelo cfg.soilThreshold = true) :
    (evaluateAndMaybeTriggerValve cfg p s onFails offFails ts).valveWrite
        = some (valveOn, reasonAutoSoilLow) ∧
      sugSoilLow ∈ (evaluateAndMaybeTriggerValve cfg p s onFails offFails ts).suggestions := by
  simp [evaluateAndMaybeTriggerValve, h]

/-- Witness for C1: zone `sol` (threshold 300), reading 250, prior valve off
under manual override — the evaluation still issues the `on` write. -/
theorem eval_soil_low_opens_w :
    jsLe (some 250) (300 : Int) = true ∧
      (evaluateAndMaybeTriggerValve cfgSol pSoil250 sControl false false 1).valveWrite
        = some (valveOn, reasonAutoSoilLow) :=
  ⟨by decide, (eval_soil_low_opens cfgSol pSoil250 sControl false false 1 (by decide)).1⟩

/-- C2: a reading strictly above threshold + 50 with a persisted valve `on`
issues the `off` / `soil_ok` write when the persisted override is false, and
issues no write (the valve staying `on`) when the override is true. -/
theorem eval_high_soil_close_respects_override (cfg : ZoneConfig) (p : Payload)
    (s : ZoneState) (onFails offFails : Bool) (ts : Nat) (v : Int)
    (hv : p.humedad_suelo = some v) (hgt : cfg.soilThreshold + 50 < v)
    (hvalve : s.valvula = some valveOn) :
    (s.manual_override = some false →
      (evaluateAndMaybeTriggerValve cfg p s onFails offFails ts).valveWrite
        = some (valveOff, reasonSoilOk)) ∧
    (s.manual_override = some true →
      (evaluateAndMaybeTriggerValve cfg p s onFails offFails ts).valveWrite = none ∧
      (evaluateAndMaybeTriggerValve cfg p s onFails offFails ts).state.valvula
        = some valveOn) := by
  have hle : jsLe p.humedad_suelo cfg.soilThreshold = false := by
    simp [jsLe, hv]
    omega
  have hgt2 : jsGt p.humedad_suelo (cfg.soilThreshold + 50) = true := by
    simp [jsGt, hv]
    omega
  constructor
  · intro hov
    simp [evaluateAndMaybeTriggerValve, hle, hgt2, hvalve, hov]
  · intro hov
    simp [evaluateAndMaybeTriggerValve, hle, hgt2, hvalve, hov]

/-- Witness for C2: zone `sol`, reading 360 > 300 + 50, valve on without
override — the `off` / `soil_ok` write is issued. -/
theorem eval_high_soil_close_respects_override_w :
    (evaluateAndMaybeTriggerValve cfgSol pSoil360 sOnManualFalse false false 1).valveWrite
      = some (valveOff, reasonSoilOk) :=
  (eval_high_soil_close_respects_override cfgSol pSoil360 sOnManualFalse false false 1 360
    rfl (by decide) rfl).1 rfl

/-- C3: a reading strictly inside the hysteresis band (threshold < soil ≤
threshold + 50) with the valve persisted `on` issues no valve write and
leaves the state exactly as it was. -/
theorem eval_hysteresis_band_no_action (cfg : ZoneConfig) (p : Payload)
    (s : ZoneState) (onFails offFails : Bool) (ts : Nat) (v : Int)
    (hv : p.humedad_suelo = some v) (hlo : cfg.soilThreshold < v)
    (hhi : v ≤ cfg.soilThreshold + 50) (_hvalve : s.valvula = some valveOn) :
    (evaluateAndMaybeTriggerValve cfg p s onFails offFails ts).valveWrite = none ∧
      (evaluateAndMaybeTriggerValve cfg p s onFails offFails ts).state = s := by
  have hle : jsLe p.humedad_suelo cfg.soilThreshold = false := by
    simp [jsLe, hv]
    omega
  have hgt2 : jsGt p.humedad_suelo (cfg.soilThreshold + 50) = false := by
    simp [jsGt, hv]
    omega
  simp [evaluateAndMaybeTriggerValve, hle, hgt2]

/-- Witness for C3: zone `sol`, reading 320 (in the band 300 < 320 ≤ 350),
valve on — no write is issued. -/
theorem eval_hysteresis_band_no_action_w :
    (evaluateAndMaybeTriggerValve cfgSol { humedad_suelo := some 320 }
        sValveOn false false 1).valveWrite = none :=
  (eval_hysteresis_band_no_action cfgSol { humedad_suelo := some 320 }
    sValveOn false false 1 320 rfl (by decide) (by decide) rfl).1

/-- C4 (amended): the automatic valve writes update only `valvula`, `reason`
and `ultima_actualizacion`, so the evaluation always leaves the persisted
`manual_override` exactly as it was — it is never written to false. -/
theorem eval_preserves_manual_override (cfg : ZoneConfig) (p : Payload) (s : ZoneState)
    (onFails offFails : Bool) (ts : Nat) :
    (evaluateAndMaybeTriggerValve cfg p s onFails offFails ts).state.manual_override
      = s.manual_override := by
  by_cases h : jsLe p.humedad_suelo cfg.soilThreshold <;>
    simp [evaluateAndMaybeTriggerValve, h, autoValveUpdate] <;>
    split_ifs <;>
    simp [autoValveUpdate]

/-- Counterexample to C4 as stated: a manual `off` on `sol` (override set to
true) followed by an ingest at soil moisture 200 ≤ 300 ends with the valve
`on` but with `manual_override` still `true`, not cleared to `false`. -/
theorem manual_off_then_low_soil_keeps_override :
    (ingest true (some secSol) pSoil200 (manualControlUpdate {} valveOff 1) {} 2).map
        (fun r => (r.state.valvula, r.state.manual_override))
      = Except.ok (some valveOn, some true) ∧
    (some true : Option Bool) ≠ some false := by
  refine ⟨rfl, by decide⟩

/-- C5: the deferred auto-close is a non-atomic read-then-write on a promise
chain the server never awaits, so a schedule in which a manual open lands
between its snapshot read and its conditional write is permitted: the listed
schedule is an order-preserving interleaving of the two operations, serial
execution (ingest of 360 fully before the manual open) ends with valve `on`
under override, yet the interleaved schedule ends with valve `off` /
`soil_ok` — the stale automatic close overwrites the newer manual open. -/
theorem stale_auto_close_overwrites_manual_open :
    isInterleaving (ingestStepsHighSoil cfgSol pSoil360 1) (manualSteps valveOn 2)
        raceSchedule = true ∧
    (runSteps raceStart (ingestStepsHighSoil cfgSol pSoil360 1 ++ manualSteps valveOn 2)).store.valvula
        = some valveOn ∧
    (runSteps raceStart (ingestStepsHighSoil cfgSol pSoil360 1 ++ manualSteps valveOn 2)).store.manual_override
        = some true ∧
    (runSteps raceStart raceSchedule).store.valvula = some valveOff ∧
    (runSteps raceStart raceSchedule).store.reason = some reasonSoilOk := by
  refine ⟨by decide, rfl, rfl, rfl, rfl⟩

/-- Counterexample to C6 as stated: with the fire-and-forget `on` write
failing (`autoOnFails`), an ingest of reading 200 on `sol` still succeeds —
the write was issued (`valveWrite` is the `on` / `auto_soil_low` pair) but
nothing was persisted, and no `StorageError` reaches the caller. -/
theorem ingest_ok_despite_on_write_failure :
    (ingest true (some secSol) pSoil200 {} { autoOnFails := true } 1).isOk = true ∧
    (ingest true (some secSol) pSoil200 {} { autoOnFails := true } 1).map
        (fun r => r.state.valvula) = Except.ok none ∧
    (ingest true (some secSol) pSoil200 {} { autoOnFails := true } 1).map
        EvalResult.valveWrite = Except.ok (some (valveOn, reasonAutoSoilLow)) := by
  refine ⟨rfl, rfl, rfl⟩

/-- C6 (amended): for a configured section, the ingest call fails (with the
storage error) exactly when the awaited telemetry merge fails; failures of
either automatic valve write never fail the call. -/
theorem ingest_storage_failure_semantics (sec : String) (cfg : ZoneConfig) (p : Payload)
    (s : ZoneState) (fo : FailureOracle) (ts : Nat) (hsec : SECTIONS sec = some cfg) :
    (fo.mergeFails = true →
        ingest true (some sec) p s fo ts = Except.error IngestError.storage) ∧
    (fo.mergeFails = false → (ingest true (some sec) p s fo ts).isOk = true) := by
  have hne : sec ≠ emptyStr := SECTIONS_ne_empty hsec
  constructor
  · intro hm
    simp [ingest, hne, hsec, hm]
  · intro hm
    simp [ingest, hne, hsec, hm, Except.isOk, Except.toBool]

/-- Witness for C6 (amended): a failing merge on `sol` surfaces as the
storage error. -/
theorem ingest_storage_failure_semantics_w :
    ingest true (some secSol) pSoil200 {} { mergeFails := true } 1
      = Except.error IngestError.storage :=
  (ingest_storage_failure_semantics secSol cfgSol pSoil200 {} { mergeFails := true } 1
    (by decide)).1 rfl

/-- C7: merging a reading whose body carries no `valvula` and no
`manual_override` key preserves both stored control fields exactly. -/
theorem merge_preserves_control_fields (s : ZoneState) (p : Payload) (ts : Nat)
    (hv : p.valvula = none) (hm : p.manual_override = none) :
    (mergeReading s p ts).valvula = s.valvula ∧
      (mergeReading s p ts).manual_override = s.manual_override := by
  simp [mergeReading, updField, hv, hm]

/-- Witness for C7: merging the plain telemetry reading 250 into a zone that
is on under override leaves valve and override untouched. -/
theorem merge_preserves_control_fields_w :
    (mergeReading sControl pSoil250 5).valvula = some valveOn ∧
      (mergeReading sControl pSoil250 5).manual_override = some true := by
  have h := merge_preserves_control_fields sControl pSoil250 5 rfl rfl
  exact ⟨h.1.trans rfl, h.2.trans rfl⟩

/-- Counterexample to C8 as stated: `patio` is not a configured section, yet
`/api/control` accepts it, performs the manual write and answers ok. -/
theorem control_accepts_unknown_section :
    SECTIONS secPatio = none ∧
    controlApply true (some secPatio) (some valveOn) {} 3
      = Except.ok (manualControlUpdate {} valveOn 3, secPatio, valveOn) := by
  refine ⟨by decide, ?_⟩
  exact controlApply_valid_eq secPatio valveOn {} 3 (by decide) (Or.inl rfl)

/-- C8 (amended): the manual-control validation rejects — writing nothing
and publishing nothing — exactly a missing or empty section or an action
outside on/off; any non-empty section whatsoever with a valid action is
accepted and written, the table of configured zones never being consulted. -/
theorem control_validation_no_zone_check :
    (∀ (act : Option String) (s : ZoneState) (ts : Nat),
        controlApply true none act s ts = Except.error ControlError.invalidPayload ∧
        controlApply true (some emptyStr) act s ts
          = Except.error ControlError.invalidPayload) ∧
    (∀ (sec : String) (act : Option String) (s : ZoneState) (ts : Nat),
        act ≠ some valveOn → act ≠ some valveOff →
        controlApply true (some sec) act s ts
          = Except.error ControlError.invalidPayload) ∧
    (∀ (sec a : String) (s : ZoneState) (ts : Nat),
        sec ≠ emptyStr → (a = valveOn ∨ a = valveOff) →
        controlApply true (some sec) (some a) s ts
          = Except.ok (manualControlUpdate s a ts, sec, a)) := by
  refine ⟨?_, ?_, ?_⟩
  · intro act s ts
    constructor
    · cases act <;> rfl
    · cases act with
      | none => rfl
      | some a => simp [controlApply]
  · intro sec act s ts h1 h2
    cases act with
    | none => rfl
    | some a =>
      have ha1 : a ≠ valveOn := fun h => h1 (by rw [h])
      have ha2 : a ≠ valveOff := fun h => h2 (by rw [h])
      simp [controlApply, ha1, ha2]
  · intro sec a s ts hsec ha
    exact controlApply_valid_eq sec a s ts hsec ha

/-- Witness for C8 (amended): a valid request on `sol` is accepted and
performs the manual write. -/
theorem control_validation_no_zone_check_w :
    controlApply true (some secSol) (some valveOn) {} 0
      = Except.ok (manualControlUpdate {} valveOn 0, secSol, valveOn) :=
  control_validation_no_zone_check.2.2 secSol valveOn {} 0 (by decide) (Or.inl rfl)

/-- Counterexample to C9 as stated: a zone last written by the automatic
open carries reason `auto_soil_low`; a successful manual `off` on it leaves
that reason in place — the reason field is present, not absent, after the
manual change. -/
theorem manual_apply_keeps_stale_reason :
    controlApply true (some secSol) (some valveOff) sAfterAuto 2
      = Except.ok (manualControlUpdate sAfterAuto valveOff 2, secSol, valveOff) ∧
    (manualControlUpdate sAfterAuto valveOff 2).reason = some reasonAutoSoilLow ∧
    some reasonAutoSoilLow ≠ (none : Option String) := by
  refine ⟨controlApply_valid_eq secSol valveOff sAfterAuto 2 (by decide) (Or.inr rfl),
    rfl, by decide⟩

/-- C9 (amended): a successful manual apply stores valve = requested action
and `manual_override` true, leaves every telemetry field unchanged, and does
not write the `reason` key at all — the prior reason value persists. -/
theorem manual_apply_state_effects (sec a : String) (s : ZoneState) (ts : Nat)
    (hsec : sec ≠ emptyStr) (ha : a = valveOn ∨ a = valveOff) :
    controlApply true (some sec) (some a) s ts
        = Except.ok (manualControlUpdate s a ts, sec, a) ∧
    (manualControlUpdate s a ts).valvula = some a ∧
    (manualControlUpdate s a ts).manual_override = some true ∧
    (manualControlUpdate s a ts).reason = s.reason ∧
    (manualControlUpdate s a ts).humedad_suelo = s.humedad_suelo ∧
    (manualControlUpdate s a ts).temp = s.temp ∧
    (manualControlUpdate s a ts).humedad_amb = s.humedad_amb ∧
    (manualControlUpdate s a ts).luminosidad = s.luminosidad := by
  refine ⟨controlApply_valid_eq sec a s ts hsec ha, rfl, rfl, rfl, rfl, rfl, rfl, rfl⟩

/-- Witness for C9 (amended): a manual `on` applied to an empty `sol` record
succeeds, and the reason of the resulting state is absent because it was
absent before. -/
theorem manual_apply_state_effects_w :
    controlApply true (some secSol) (some valveOn) {} 7
      = Except.ok (manualControlUpdate {} valveOn 7, secSol, valveOn) ∧
    (manualControlUpdate ({} : ZoneState) valveOn 7).reason = none := by
  have h := manual_apply_state_effects secSol valveOn {} 7 (by decide) (Or.inl rfl)
  exact ⟨h.1, h.2.2.2.1.trans rfl⟩

/-- C10: two successful ingest calls for the same configured section and the
same reading return identical suggestion lists and identical joined
suggestion text, whatever the stored zone states, write-failure outcomes and
timestamps of the two calls — the returned advisories never consult the
store. -/
theorem ingest_suggestions_state_independent (sec : String) (cfg : ZoneConfig)
    (p : Payload) (s1 s2 : ZoneState) (fo1 fo2 : FailureOracle) (t1 t2 : Nat)
    (hsec : SECTIONS sec = some cfg)
    (h1 : fo1.mergeFails = false) (h2 : fo2.mergeFails = false) :
    (ingest true (some sec) p s1 fo1 t1).map EvalResult.suggestions
        = (ingest true (some sec) p s2 fo2 t2).map EvalResult.suggestions ∧
    (ingest true (some sec) p s1 fo1 t1).map EvalResult.suggestionText
        = (ingest true (some sec) p s2 fo2 t2).map EvalResult.suggestionText := by
  have hne : sec ≠ emptyStr := SECTIONS_ne_empty hsec
  have hs := eval_suggestions_state_independent cfg p (mergeReading s1 p t1)
    (mergeReading s2 p t2) fo1.autoOnFails fo1.autoOffFails fo2.autoOnFails
    fo2.autoOffFails t1 t2
  constructor <;> simp [ingest, hne, hsec, h1, h2, Except.map, hs.1, hs.2]

/-- Witness for C10: ingesting reading 250 on `sol` into an empty record with
no failures, and into an overridden-on record with the on-write failing,
returns the same suggestions. -/
theorem ingest_suggestions_state_independent_w :
    (ingest true (some secSol) pSoil250 {} {} 1).map EvalResult.suggestions
      = (ingest true (some secSol) pSoil250 sControl { autoOnFails := true } 2).map
          EvalResult.suggestions :=
  (ingest_suggestions_state_independent secSol cfgSol pSoil250 {} sControl {}
    { autoOnFails := true } 1 2 (by decide) rfl rfl).1
